import Mathlib

/-!
Verification of the context-aware template lock resolution and application
engine of SillyTavern-CCPromptManager, shallowly embedded from the extension
source (the monolithic `index.js`, given as `src/unnamed/part_001`).

Conventions of the embedding:
* JavaScript strings-or-null values become `Option String`; JavaScript
  truthiness on such values (`if (x)`) becomes `jsTruthy` (null and the empty
  string are falsy).
* `x || null` on a string-or-null value becomes `jsOrNull`.
* Async functions carry no concurrency here (the host is single-threaded);
  they become plain state-passing functions.
* Debounced persistence calls (`saveSettingsDebounced`, `saveMetadataDebounced`,
  `editGroup`) are recorded as `FlushEvent`s appended to a log, since the
  claims concern only whether a flush was triggered.
-/

namespace CCPM

/-- JavaScript truthiness of a string-or-null value: `null` and `""` are falsy. -/
def jsTruthy : Option String → Bool
  | none => false
  | some s => !(s == "")

/-- JavaScript `x || null` on a string-or-null value: falsy collapses to null. -/
def jsOrNull (x : Option String) : Option String :=
  if jsTruthy x then x else none

/-- `SETTING_SOURCES.CHARACTER` -/
def SRC_CHARACTER : String := "character"

/-- `SETTING_SOURCES.CHAT` -/
def SRC_CHAT : String := "chat"

/-- `SETTING_SOURCES.GROUP` -/
def SRC_GROUP : String := "group"

/-- `SETTING_SOURCES.GROUP_CHAT` -/
def SRC_GROUP_CHAT : String := "group chat"

/-- `CACHE_TTL` (milliseconds). -/
def CACHE_TTL : Nat := 1000

/-- The priority-preference booleans stored in the extension settings document
(`preferCharacterOverChat`, `preferGroupOverChat`,
`preferIndividualCharacterInGroup`), as read by `TemplateLockResolver`. -/
structure Prefs where
  preferCharacterOverChat : Bool
  preferGroupOverChat : Bool
  preferIndividualCharacterInGroup : Bool
deriving Repr, DecidableEq

/-- Defaults written by `PromptTemplateManager.initializeSettings`. -/
def defaultPrefs : Prefs :=
  { preferCharacterOverChat := true
    preferGroupOverChat := true
    preferIndividualCharacterInGroup := false }

/-- The `currentLocks` shape built by `TemplateLockManager._getEmptyLocks` and
passed to `TemplateLockResolver.resolve` as `availableLocks`. -/
structure Locks where
  character : Option String
  chat : Option String
  group : Option String
deriving Repr, DecidableEq

/-- `TemplateLockManager._getEmptyLocks()` -/
def emptyLocks : Locks := { character := none, chat := none, group := none }

/-- The `{ templateId, source }` object returned by the resolver. -/
structure LockResult where
  templateId : Option String
  source : String
deriving Repr, DecidableEq

/-- The context snapshot object built by `ChatContext._buildContext`
(`type` is represented by `isGroupChat`, which the code derives it from). -/
structure Ctx where
  isGroupChat : Bool
  groupId : Option String
  groupName : Option String
  chatId : Option String
  chatName : Option String
  characterName : Option String
  primaryId : Option String
  secondaryId : Option String
deriving Repr, DecidableEq

/-- `TemplateLockResolver._resolveSingleLocks` (current copy, lines 423-437). -/
def resolveSingleLocks (prefs : Prefs) (locks : Locks) : LockResult :=
  if prefs.preferCharacterOverChat then
    if jsTruthy locks.character then { templateId := locks.character, source := SRC_CHARACTER }
    else if jsTruthy locks.chat then { templateId := locks.chat, source := SRC_CHAT ++ " (fallback)" }
    else { templateId := none, source := "none" }
  else
    if jsTruthy locks.chat then { templateId := locks.chat, source := SRC_CHAT }
    else if jsTruthy locks.character then { templateId := locks.character, source := SRC_CHARACTER ++ " (fallback)" }
    else { templateId := none, source := "none" }

/-- `TemplateLockResolver._resolveGroupLocks` (current copy, lines 401-421). -/
def resolveGroupLocks (prefs : Prefs) (locks : Locks) : LockResult :=
  if prefs.preferIndividualCharacterInGroup && jsTruthy locks.character then
    { templateId := locks.character, source := SRC_CHARACTER }
  else if prefs.preferGroupOverChat then
    if jsTruthy locks.group then { templateId := locks.group, source := SRC_GROUP }
    else if jsTruthy locks.chat then { templateId := locks.chat, source := SRC_GROUP_CHAT ++ " (fallback)" }
    else if jsTruthy locks.character then { templateId := locks.character, source := SRC_CHARACTER ++ " (fallback)" }
    else { templateId := none, source := "none" }
  else
    if jsTruthy locks.chat then { templateId := locks.chat, source := SRC_GROUP_CHAT }
    else if jsTruthy locks.group then { templateId := locks.group, source := SRC_GROUP ++ " (fallback)" }
    else if jsTruthy locks.character then { templateId := locks.character, source := SRC_CHARACTER ++ " (fallback)" }
    else { templateId := none, source := "none" }

/-- `TemplateLockResolver.resolve` (current copy, lines 393-399). -/
def resolve (prefs : Prefs) (context : Ctx) (availableLocks : Locks) : LockResult :=
  if context.isGroupChat then resolveGroupLocks prefs availableLocks
  else resolveSingleLocks prefs availableLocks

/-- Legacy `TemplateLockResolver._resolveGroupLocks` (second copy, lines 2766-2775):
fixed priority group > group chat > character. -/
def legacyResolveGroupLocks (locks : Locks) : LockResult :=
  if jsTruthy locks.group then { templateId := locks.group, source := SRC_GROUP }
  else if jsTruthy locks.chat then { templateId := locks.chat, source := SRC_GROUP_CHAT }
  else if jsTruthy locks.character then { templateId := locks.character, source := SRC_CHARACTER }
  else { templateId := none, source := "none" }

/-- Legacy `TemplateLockResolver._resolveSingleLocks` (second copy, lines 2777-2785):
fixed priority character > chat. -/
def legacyResolveSingleLocks (locks : Locks) : LockResult :=
  if jsTruthy locks.character then { templateId := locks.character, source := SRC_CHARACTER }
  else if jsTruthy locks.chat then { templateId := locks.chat, source := SRC_CHAT }
  else { templateId := none, source := "none" }

/-- Legacy `TemplateLockResolver.resolve` (second copy, lines 2758-2764). -/
def legacyResolve (context : Ctx) (availableLocks : Locks) : LockResult :=
  if context.isGroupChat then legacyResolveGroupLocks availableLocks
  else legacyResolveSingleLocks availableLocks

/-- The two scope kinds of the Single family. -/
inductive SScope where
  | character
  | chat
deriving Repr, DecidableEq

/-- The three scope kinds of the Group family (`groupChat` is the
group-session scope, stored under the source label "group chat"). -/
inductive GScope where
  | group
  | groupChat
  | character
deriving Repr, DecidableEq

/-- The Single-family ranking denoted by `preferCharacterOverChat`. -/
def singleRanking (preferCharacterOverChat : Bool) : List SScope :=
  if preferCharacterOverChat then [.character, .chat] else [.chat, .character]

/-- The Group-family ranking denoted by the two group preference booleans:
`preferIndividualCharacterInGroup` promotes the character scope to the front,
and `preferGroupOverChat` orders group versus group-session below it. -/
def groupRanking (preferIndividualCharacterInGroup preferGroupOverChat : Bool) : List GScope :=
  (if preferIndividualCharacterInGroup then [GScope.character] else [])
    ++ (if preferGroupOverChat then [GScope.group, .groupChat, .character]
        else [GScope.groupChat, .group, .character])

/-- The lock held by a Single-family scope in a lock set. -/
def lockOfS (locks : Locks) : SScope → Option String
  | .character => locks.character
  | .chat => locks.chat

/-- The lock held by a Group-family scope in a lock set. -/
def lockOfG (locks : Locks) : GScope → Option String
  | .group => locks.group
  | .groupChat => locks.chat
  | .character => locks.character

/-- Source label of a Single-family scope. -/
def sNameOf : SScope → String
  | .character => SRC_CHARACTER
  | .chat => SRC_CHAT

/-- Source label of a Group-family scope. -/
def gNameOf : GScope → String
  | .group => SRC_GROUP
  | .groupChat => SRC_GROUP_CHAT
  | .character => SRC_CHARACTER

/-- A resolver source string denotes a Single-family scope when it is that
scope's label, possibly tagged "(fallback)". -/
def sourceDenotesS (src : String) (k : SScope) : Prop :=
  src = sNameOf k ∨ src = sNameOf k ++ " (fallback)"

/-- A resolver source string denotes a Group-family scope when it is that
scope's label, possibly tagged "(fallback)". -/
def sourceDenotesG (src : String) (k : GScope) : Prop :=
  src = gNameOf k ∨ src = gNameOf k ++ " (fallback)"

/-! ## ChatContext: snapshot construction and the TTL cache -/

/-- One entry of the host `groups` array, restricted to the fields the
extension reads (`id`, `name`, `chat_id`) and writes (`ccpm_template_lock`). -/
structure Group where
  id : String
  name : Option String
  chat_id : Option String
  ccpm_template_lock : Option String
deriving Repr, DecidableEq

/-- The host state read by `ChatContext._buildContext` and the lock getters:
`selected_group`, `groups`, `name2`, the two sentinel names, the
`chat_metadata` document (presence, its `character_name`, and the
`chat_metadata.CCPM.templateLock` slot), `getContext().chatId`, and the
`characters` array (names only, used by `findIndex`). -/
structure HostEnv where
  selected_group : Option String
  groups : List Group
  name2 : Option String
  systemUserName : String
  neutralCharacterName : String
  chatMetadataPresent : Bool
  chatMetaCharacterName : Option String
  chatMetaTemplateLock : Option String
  contextChatId : Option String
  characters : List String
deriving Repr, DecidableEq

/-- Unicode NFC normalization (`String.prototype.normalize('NFC')`). Modelled
as the identity: the claims about character names depend only on trimming and
emptiness, which NFC preserves. -/
def normalizeNFC (s : String) : String := s

/-- The ECMAScript WhiteSpace and LineTerminator characters removed by
`String.prototype.trim`. -/
def isJsWhitespace (c : Char) : Bool :=
  c == ' ' || c == '\t' || c == '\n' || c == '\r' ||
  c == '\x0b' || c == '\x0c' || c.val == 0xA0 || c.val == 0xFEFF ||
  c.val == 0x1680 || (0x2000 ≤ c.val && c.val ≤ 0x200A) ||
  c.val == 0x2028 || c.val == 0x2029 || c.val == 0x202F ||
  c.val == 0x205F || c.val == 0x3000

/-- `String.prototype.trim`: strip leading and trailing whitespace. -/
def jsTrim (s : String) : String :=
  String.mk (((s.data.dropWhile isJsWhitespace).reverse.dropWhile isJsWhitespace).reverse)

/-- `ChatContext._getCharacterNameFromChatMetadata` (lines 133-141). -/
def getCharacterNameFromChatMetadata (env : HostEnv) : Option String :=
  match env.chatMetaCharacterName with
  | some s => if jsTruthy (some s) then some (jsTrim s) else none
  | none => none

/-- `ChatContext._getCharacterNameForSettings` (lines 114-131). -/
def getCharacterNameForSettings (env : HostEnv) : Option String :=
  let c0 := env.name2
  let c1 :=
    if !jsTruthy c0 || c0 == some env.systemUserName || c0 == some env.neutralCharacterName
    then getCharacterNameFromChatMetadata env
    else c0
  if !jsTruthy c1 then none
  else c1.map (fun s => normalizeNFC (jsTrim s))

/-- `ChatContext._getCurrentChatId` (lines 143-150). -/
def getCurrentChatId (env : HostEnv) : Option String :=
  jsOrNull env.contextChatId

/-- `ChatContext._buildGroupContext` (lines 80-95). -/
def buildGroupContext (env : HostEnv) : Ctx :=
  let groupId := env.selected_group
  let group := env.groups.find? (fun x => some x.id == groupId)
  { isGroupChat := true
    groupId := groupId
    groupName := jsOrNull (group.bind (·.name))
    chatId := jsOrNull (group.bind (·.chat_id))
    chatName := jsOrNull (group.bind (·.name))
    characterName := jsOrNull (group.bind (·.name))
    primaryId := groupId
    secondaryId := group.bind (·.chat_id) }

/-- `ChatContext._buildSingleContext` (lines 97-112). -/
def buildSingleContext (env : HostEnv) : Ctx :=
  let characterName := getCharacterNameForSettings env
  let chatId := getCurrentChatId env
  { isGroupChat := false
    groupId := none
    groupName := none
    chatId := chatId
    chatName := chatId
    characterName := characterName
    primaryId := characterName
    secondaryId := chatId }

/-- `ChatContext._buildContext` (lines 70-78): classify by `!!selected_group`. -/
def buildContext (env : HostEnv) : Ctx :=
  if jsTruthy env.selected_group then buildGroupContext env
  else buildSingleContext env

/-- The mutable state of a `ChatContext` instance: the `'current'` entry of
`this.cache` and `this.cacheTime`. -/
structure CtxCache where
  cache : Option Ctx
  cacheTime : Nat
deriving Repr, DecidableEq

deriving instance DecidableEq for Except

/-- What one `ChatContext.getCurrent()` call produces: its result (an
exception when construction fails with no cached fallback), the cache state
after the call, and whether `_buildContext` was invoked. -/
structure GetCurrentOut where
  result : Except String Ctx
  state : CtxCache
  rebuilt : Bool
deriving Repr, DecidableEq

/-- `ChatContext.getCurrent` (lines 44-63), with the current time and the
outcome of `_buildContext` (which can throw) supplied as arguments. -/
def getCurrent (now : Nat) (build : Except String Ctx) (s : CtxCache) : GetCurrentOut :=
  match s.cache with
  | some c =>
    if now - s.cacheTime < CACHE_TTL then
      { result := .ok c, state := s, rebuilt := false }
    else
      match build with
      | .ok ctx => { result := .ok ctx, state := { cache := some ctx, cacheTime := now }, rebuilt := true }
      | .error _ => { result := .ok c, state := s, rebuilt := true }
  | none =>
    match build with
    | .ok ctx => { result := .ok ctx, state := { cache := some ctx, cacheTime := now }, rebuilt := true }
    | .error e => { result := .error e, state := s, rebuilt := true }

/-- `ChatContext.invalidate` (lines 65-68). -/
def invalidate (_s : CtxCache) : CtxCache :=
  { cache := none, cacheTime := 0 }

/-- `getCurrent` specialized to a successful `_buildContext` over a host
environment (the only way the handlers in this file call it). -/
def getCurrentOk (now : Nat) (env : HostEnv) (s : CtxCache) : Ctx × CtxCache :=
  match s.cache with
  | some c =>
    if now - s.cacheTime < CACHE_TTL then (c, s)
    else (buildContext env, { cache := some (buildContext env), cacheTime := now })
  | none => (buildContext env, { cache := some (buildContext env), cacheTime := now })

/-! ## TemplateStorageAdapter: the four lock storage regions -/

/-- Persistence flushes the adapter can trigger: `saveSettingsDebounced`
(global settings region), `saveMetadataDebounced` (chat metadata region), and
`editGroup` (group record region). -/
inductive FlushEvent where
  | saveSettingsDebounced
  | saveMetadataDebounced
  | editGroup (groupId : String)
deriving Repr, DecidableEq

/-- Mutable storage reachable through `TemplateStorageAdapter`:
`extension_settings.CCPM.templateLocks.character` (an object keyed by
`String(characterKey)`), plus the host documents in `HostEnv`
(`chat_metadata.CCPM.templateLock`, the `groups` records), plus the log of
persistence flushes triggered so far. -/
structure StorageState where
  characterLocks : List (String × String)
  env : HostEnv
  flushes : List FlushEvent
deriving Repr, DecidableEq

/-- Object property lookup on the character-lock document. -/
def assocGet (l : List (String × String)) (k : String) : Option String :=
  (l.find? (fun p => p.1 == k)).map (·.2)

/-- Object property assignment on the character-lock document
(overwrite, not accumulate). -/
def assocSet (l : List (String × String)) (k v : String) : List (String × String) :=
  if l.any (fun p => p.1 == k)
  then l.map (fun p => if p.1 == k then (k, v) else p)
  else l ++ [(k, v)]

/-- `delete` of a property on the character-lock document. -/
def assocDelete (l : List (String × String)) (k : String) : List (String × String) :=
  l.filter (fun p => !(p.1 == k))

/-- `TemplateStorageAdapter.getCharacterTemplateLock` (lines 177-185). -/
def getCharacterTemplateLock (s : StorageState) (characterKey : Option String) : Option String :=
  match characterKey with
  | none => none
  | some k => jsOrNull (assocGet s.characterLocks k)

/-- `TemplateStorageAdapter.setCharacterTemplateLock` (lines 187-205):
writes the key and triggers `saveSettingsDebounced`. -/
def setCharacterTemplateLock (s : StorageState) (characterKey : Option String)
    (templateId : String) : Bool × StorageState :=
  match characterKey with
  | none => (false, s)
  | some k =>
    (true, { s with characterLocks := assocSet s.characterLocks k templateId
                    flushes := s.flushes ++ [.saveSettingsDebounced] })

/-- `TemplateStorageAdapter.deleteCharacterTemplateLock` (lines 207-222). -/
def deleteCharacterTemplateLock (s : StorageState) (characterKey : Option String) :
    Bool × StorageState :=
  match characterKey with
  | none => (false, s)
  | some k =>
    if jsTruthy (assocGet s.characterLocks k) then
      (true, { s with characterLocks := assocDelete s.characterLocks k
                      flushes := s.flushes ++ [.saveSettingsDebounced] })
    else (false, s)

/-- `TemplateStorageAdapter.getGroupTemplateLock` (lines 225-237). -/
def getGroupTemplateLock (s : StorageState) (groupId : Option String) : Option String :=
  if !jsTruthy groupId then none
  else jsOrNull ((s.env.groups.find? (fun x => some x.id == groupId)).bind (·.ccpm_template_lock))

/-- Set the lock property on the first group record matching the id. -/
def setGroupLockInList : List Group → String → Option String → List Group
  | [], _, _ => []
  | g :: rest, gid, v =>
    if g.id == gid then { g with ccpm_template_lock := v } :: rest
    else g :: setGroupLockInList rest gid v

/-- `TemplateStorageAdapter.setGroupTemplateLock` (lines 239-258): writes the
group record and awaits `editGroup`. -/
def setGroupTemplateLock (s : StorageState) (groupId : Option String)
    (templateId : String) : Bool × StorageState :=
  match groupId with
  | none => (false, s)
  | some gid =>
    if gid == "" then (false, s)
    else
      match s.env.groups.find? (fun x => x.id == gid) with
      | none => (false, s)
      | some _ =>
        (true, { s with env := { s.env with groups := setGroupLockInList s.env.groups gid (some templateId) }
                        flushes := s.flushes ++ [.editGroup gid] })

/-- `TemplateStorageAdapter.deleteGroupTemplateLock` (lines 260-277). -/
def deleteGroupTemplateLock (s : StorageState) (groupId : Option String) :
    Bool × StorageState :=
  match groupId with
  | none => (false, s)
  | some gid =>
    if gid == "" then (false, s)
    else
      if jsTruthy ((s.env.groups.find? (fun x => x.id == gid)).bind (·.ccpm_template_lock)) then
        (true, { s with env := { s.env with groups := setGroupLockInList s.env.groups gid none }
                        flushes := s.flushes ++ [.editGroup gid] })
      else (false, s)

/-- `TemplateStorageAdapter.getChatTemplateLock` (lines 280-288). -/
def getChatTemplateLock (s : StorageState) : Option String :=
  if s.env.chatMetadataPresent then jsOrNull s.env.chatMetaTemplateLock else none

/-- `TemplateStorageAdapter.setChatTemplateLock` (lines 290-308): writes
`chat_metadata.CCPM.templateLock` and triggers `_triggerMetadataSave`
(`saveMetadataDebounced`). -/
def setChatTemplateLock (s : StorageState) (templateId : String) : Bool × StorageState :=
  if !s.env.chatMetadataPresent then (false, s)
  else
    (true, { s with env := { s.env with chatMetaTemplateLock := some templateId }
                    flushes := s.flushes ++ [.saveMetadataDebounced] })

/-- `TemplateStorageAdapter.deleteChatTemplateLock` (lines 310-323). -/
def deleteChatTemplateLock (s : StorageState) : Bool × StorageState :=
  if s.env.chatMetadataPresent && jsTruthy s.env.chatMetaTemplateLock then
    (true, { s with env := { s.env with chatMetaTemplateLock := none }
                    flushes := s.flushes ++ [.saveMetadataDebounced] })
  else (false, s)

/-- `TemplateStorageAdapter.getGroupChatTemplateLock` (lines 326-337). -/
def getGroupChatTemplateLock (s : StorageState) (groupId : Option String) : Option String :=
  if !jsTruthy groupId then none
  else if s.env.chatMetadataPresent then jsOrNull s.env.chatMetaTemplateLock
  else none

/-- `TemplateStorageAdapter.setGroupChatTemplateLock` (lines 339-357): writes
`chat_metadata.CCPM.templateLock` and returns true. Note: unlike
`setChatTemplateLock`, the source triggers no metadata save here. -/
def setGroupChatTemplateLock (s : StorageState) (groupId : Option String)
    (templateId : String) : Bool × StorageState :=
  if !jsTruthy groupId then (false, s)
  else if s.env.chatMetadataPresent then
    (true, { s with env := { s.env with chatMetaTemplateLock := some templateId } })
  else (false, s)

/-- `TemplateStorageAdapter.deleteGroupChatTemplateLock` (lines 359-374):
deletes the lock and returns true, again without triggering a metadata save. -/
def deleteGroupChatTemplateLock (s : StorageState) (groupId : Option String) :
    Bool × StorageState :=
  if !jsTruthy groupId then (false, s)
  else if s.env.chatMetadataPresent && jsTruthy s.env.chatMetaTemplateLock then
    (true, { s with env := { s.env with chatMetaTemplateLock := none } })
  else (false, s)

/-! ## TemplateLockManager: loading locks, setting and clearing them -/

/-- The character storage key used by `TemplateLockManager` (lines 488-489,
513-514, 545-546): the `findIndex` of the name in `characters` when found
(stringified by the adapter), else the name itself. -/
def charKeyFor (characters : List String) (name : String) : String :=
  match characters.findIdx? (fun x => x == name) with
  | some i => toString i
  | none => name

/-- The character-lock read shared by `_loadSingleLocks` and
`_loadGroupLocks`: guarded by the truthiness of `context.characterName`. -/
def loadCharacterLock (s : StorageState) (c : Ctx) : Option String :=
  match c.characterName with
  | some nm =>
    if nm == "" then none
    else getCharacterTemplateLock s (some (charKeyFor s.env.characters nm))
  | none => none

/-- `TemplateLockManager._loadSingleLocks` (lines 486-496), starting from
`_getEmptyLocks()`. -/
def loadSingleLocks (s : StorageState) (c : Ctx) : Locks :=
  { character := loadCharacterLock s c
    chat := if jsTruthy c.chatId then getChatTemplateLock s else none
    group := none }

/-- `TemplateLockManager._loadGroupLocks` (lines 472-484), starting from
`_getEmptyLocks()`. -/
def loadGroupLocks (s : StorageState) (c : Ctx) : Locks :=
  { character := loadCharacterLock s c
    chat := if jsTruthy c.groupId then getGroupChatTemplateLock s c.groupId else none
    group := if jsTruthy c.groupId then getGroupTemplateLock s c.groupId else none }

/-- The lock set computed by `TemplateLockManager.loadCurrentLocks`
(lines 459-470) for a given context snapshot. -/
def loadCurrentLocksPure (s : StorageState) (c : Ctx) : Locks :=
  if c.isGroupChat then loadGroupLocks s c else loadSingleLocks s c

/-- The mutable state of a `TemplateLockManager`: its storage, its
`ChatContext` cache, and the in-memory `currentLocks` mirror. -/
structure LockMgrState where
  storage : StorageState
  ctx : CtxCache
  currentLocks : Locks
deriving Repr, DecidableEq

/-- `TemplateLockManager.loadCurrentLocks` (lines 459-470) as a state
transformer (its `getCurrent` call may populate the context cache). -/
def loadCurrentLocks (now : Nat) (ms : LockMgrState) : Locks × LockMgrState :=
  let p := getCurrentOk now ms.storage.env ms.ctx
  let locks := loadCurrentLocksPure ms.storage p.1
  (locks, { ms with ctx := p.2, currentLocks := locks })

/-- `TemplateLockManager.setLock` (lines 506-536). -/
def setLock (now : Nat) (target : String) (templateId : String) (ms : LockMgrState) :
    Bool × LockMgrState :=
  let p := getCurrentOk now ms.storage.env ms.ctx
  let c := p.1
  let ms := { ms with ctx := p.2 }
  if target == "character" then
    match c.characterName with
    | some nm =>
      if nm == "" then (false, ms)
      else
        let key := charKeyFor ms.storage.env.characters nm
        let r := setCharacterTemplateLock ms.storage (some key) templateId
        if r.1 then
          (true, { ms with storage := r.2
                           currentLocks := { ms.currentLocks with character := some templateId } })
        else (false, { ms with storage := r.2 })
    | none => (false, ms)
  else if target == "chat" then
    let r :=
      if c.isGroupChat then setGroupChatTemplateLock ms.storage c.groupId templateId
      else setChatTemplateLock ms.storage templateId
    if r.1 then
      (true, { ms with storage := r.2
                       currentLocks := { ms.currentLocks with chat := some templateId } })
    else (false, { ms with storage := r.2 })
  else if target == "group" then
    if c.isGroupChat && jsTruthy c.groupId then
      let r := setGroupTemplateLock ms.storage c.groupId templateId
      if r.1 then
        (true, { ms with storage := r.2
                         currentLocks := { ms.currentLocks with group := some templateId } })
      else (false, { ms with storage := r.2 })
    else (false, ms)
  else (false, ms)

/-- `TemplateLockManager.clearLock` (lines 538-568). -/
def clearLock (now : Nat) (target : String) (ms : LockMgrState) : Bool × LockMgrState :=
  let p := getCurrentOk now ms.storage.env ms.ctx
  let c := p.1
  let ms := { ms with ctx := p.2 }
  if target == "character" then
    match c.characterName with
    | some nm =>
      if nm == "" then (false, ms)
      else
        let key := charKeyFor ms.storage.env.characters nm
        let r := deleteCharacterTemplateLock ms.storage (some key)
        if r.1 then
          (true, { ms with storage := r.2
                           currentLocks := { ms.currentLocks with character := none } })
        else (false, { ms with storage := r.2 })
    | none => (false, ms)
  else if target == "chat" then
    let r :=
      if c.isGroupChat then deleteGroupChatTemplateLock ms.storage c.groupId
      else deleteChatTemplateLock ms.storage
    if r.1 then
      (true, { ms with storage := r.2
                       currentLocks := { ms.currentLocks with chat := none } })
    else (false, { ms with storage := r.2 })
  else if target == "group" then
    if c.isGroupChat && jsTruthy c.groupId then
      let r := deleteGroupTemplateLock ms.storage c.groupId
      if r.1 then
        (true, { ms with storage := r.2
                         currentLocks := { ms.currentLocks with group := none } })
      else (false, { ms with storage := r.2 })
    else (false, ms)
  else (false, ms)

/-! ## PromptTemplateManager.applyTemplate and the live prompt state -/

/-- One entry of `oai_settings.prompts` (fields beyond the identifier are
opaque payload to the engine). -/
structure Prompt where
  identifier : String
  role : String
  content : String
deriving Repr, DecidableEq

/-- One entry of a prompt order list: `{identifier, enabled}`. -/
structure OrderEntry where
  identifier : String
  enabled : Bool
deriving Repr, DecidableEq

/-- One entry of `oai_settings.prompt_order`: `{character_id, order}`. -/
structure OrderTableEntry where
  character_id : Nat
  order : List OrderEntry
deriving Repr, DecidableEq

/-- A stored `PromptTemplate`: `prompts` is the template's prompt object in
insertion order (what `Object.values(tmpl.prompts)` yields), `promptOrder`
the captured order list, `promptOrderCharacterId` the captured character id
(absent unless set on the object). -/
structure PromptTemplate where
  id : String
  name : String
  prompts : List Prompt
  promptOrder : List OrderEntry
  promptOrderCharacterId : Option Nat
deriving Repr, DecidableEq

/-- The host's live prompt state mutated by `applyTemplate`:
`oai_settings.prompts`, `oai_settings.prompt_order`, and
`promptManager.activeCharacter.id` (none when `activeCharacter` is null). -/
structure HostPromptState where
  prompts : List Prompt
  prompt_order : List OrderTableEntry
  activeCharacter : Option Nat
deriving Repr, DecidableEq

/-- `PromptTemplateManager.getTemplate` (lines 766-768) over the stored map. -/
def findTemplate (templates : List PromptTemplate) (id : String) : Option PromptTemplate :=
  templates.find? (fun t => t.id == id)

/-- Replace the `order` of the first `prompt_order` entry whose
`character_id` matches (the object `Array.prototype.find` returns). -/
def replaceFirstOrder : List OrderTableEntry → Nat → List OrderEntry → List OrderTableEntry
  | [], _, _ => []
  | e :: rest, cid, ord =>
    if e.character_id == cid then { e with order := ord } :: rest
    else e :: replaceFirstOrder rest cid ord

/-- The prompt-order update of `applyTemplate` (lines 909-926): replace the
existing entry for the target character id, else push a new one. -/
def applyPromptOrder (po : List OrderTableEntry) (cid : Nat) (ord : List OrderEntry) :
    List OrderTableEntry :=
  if po.any (fun e => e.character_id == cid) then replaceFirstOrder po cid ord
  else po ++ [{ character_id := cid, order := ord }]

/-- `PromptTemplateManager.applyTemplate` (lines 871-955). Returns the success
flag and the live prompt state after the call. `promptManagerAvailable`
models the `if (!promptManager)` guard; `saveServiceSettings`/`render` touch
no field of `HostPromptState`. -/
def applyTemplate (templates : List PromptTemplate) (templateId : String)
    (promptManagerAvailable : Bool) (host : HostPromptState) : Bool × HostPromptState :=
  match findTemplate templates templateId with
  | none => (false, host)
  | some tmpl =>
    if !promptManagerAvailable then (false, host)
    else
      let promptUpdates := tmpl.prompts
      let host1 := { host with prompts := promptUpdates }
      let host2 :=
        if tmpl.promptOrder.length > 0 then
          let targetCharacterId := tmpl.promptOrderCharacterId.getD 100000
          let host' := { host1 with
            prompt_order := applyPromptOrder host1.prompt_order targetCharacterId tmpl.promptOrder }
          { host' with
            activeCharacter :=
              if host'.activeCharacter.isSome then some targetCharacterId
              else host'.activeCharacter }
        else host1
      (true, host2)

/-! ## The auto-apply event handlers -/

/-- The whole manager state the handlers touch: the lock manager, the
settings the handlers read (`extension_settings.ccPromptManager?.autoApplyMode`
and the preference booleans handed to the resolver), the template store, and
the live prompt state. -/
structure MgrState where
  lockMgr : LockMgrState
  autoApplyMode : Option String
  prefs : Prefs
  templates : List PromptTemplate
  promptManagerAvailable : Bool
  host : HostPromptState
deriving Repr, DecidableEq

/-- `extension_settings.ccPromptManager?.autoApplyMode || AUTO_APPLY_MODES.ASK`. -/
def modeOf (m : Option String) : String :=
  match m with
  | some s => if s == "" then "ask" else s
  | none => "ask"

/-- `TemplateLockManager.getLockToApply` (lines 498-504): resolve the current
locks against the (possibly cached) context. -/
def getLockToApply (now : Nat) (prefs : Prefs) (ms : LockMgrState) :
    LockResult × LockMgrState :=
  let p := getCurrentOk now ms.storage.env ms.ctx
  (resolve prefs p.1 ms.currentLocks, { ms with ctx := p.2 })

/-- `PromptTemplateManager.getEffectiveLock` (lines 1422-1425):
`loadCurrentLocks` then `getLockToApply`. -/
def getEffectiveLock (now : Nat) (prefs : Prefs) (ms : LockMgrState) :
    LockResult × LockMgrState :=
  getLockToApply now prefs (loadCurrentLocks now ms).2

/-- `PromptTemplateManager.handleChatChange` (lines 1159-1216), with the
confirmation popup's outcome supplied as `popupAffirmative`. Returns the new
state and the list of template ids passed to `applyTemplate`. -/
def handleChatChange (now : Nat) (popupAffirmative : Bool) (st : MgrState) :
    MgrState × List String :=
  let ms0 := { st.lockMgr with ctx := invalidate st.lockMgr.ctx }
  let ms1 := (loadCurrentLocks now ms0).2
  let mode := modeOf st.autoApplyMode
  if mode == "never" then ({ st with lockMgr := ms1 }, [])
  else
    let eff := (getEffectiveLock now st.prefs ms1).1
    let ms2 := (getEffectiveLock now st.prefs ms1).2
    match eff.templateId with
    | none => ({ st with lockMgr := ms2 }, [])
    | some tid =>
      if tid == "" then ({ st with lockMgr := ms2 }, [])
      else
        match findTemplate st.templates tid with
        | none => ({ st with lockMgr := ms2 }, [])
        | some _ =>
          if mode == "ask" then
            let ms3 := { ms2 with ctx := (getCurrentOk now ms2.storage.env ms2.ctx).2 }
            if popupAffirmative then
              let host2 := (applyTemplate st.templates tid st.promptManagerAvailable st.host).2
              ({ st with lockMgr := ms3, host := host2 }, [tid])
            else ({ st with lockMgr := ms3 }, [])
          else if mode == "always" then
            let host2 := (applyTemplate st.templates tid st.promptManagerAvailable st.host).2
            ({ st with lockMgr := ms2, host := host2 }, [tid])
          else ({ st with lockMgr := ms2 }, [])

/-- `PromptTemplateManager.handlePresetChange` (lines 1106-1154), with the
confirmation popup's outcome supplied as `popupAffirmative`. Returns the new
state and the list of template ids passed to `applyTemplate`. -/
def handlePresetChange (now : Nat) (popupAffirmative : Bool) (st : MgrState) :
    MgrState × List String :=
  let mode := modeOf st.autoApplyMode
  if mode == "never" then (st, [])
  else
    let eff := (getEffectiveLock now st.prefs st.lockMgr).1
    let ms1 := (getEffectiveLock now st.prefs st.lockMgr).2
    match eff.templateId with
    | none => ({ st with lockMgr := ms1 }, [])
    | some tid =>
      if tid == "" then ({ st with lockMgr := ms1 }, [])
      else
        if mode == "ask" then
          let ms2 := { ms1 with ctx := (getCurrentOk now ms1.storage.env ms1.ctx).2 }
          match findTemplate st.templates tid with
          | none => ({ st with lockMgr := ms2 }, [])
          | some _ =>
            if popupAffirmative then
              let host2 := (applyTemplate st.templates tid st.promptManagerAvailable st.host).2
              ({ st with lockMgr := ms2, host := host2 }, [tid])
            else ({ st with lockMgr := ms2 }, [])
        else if mode == "always" then
          match findTemplate st.templates tid with
          | none => ({ st with lockMgr := ms1 }, [])
          | some _ =>
            let host2 := (applyTemplate st.templates tid st.promptManagerAvailable st.host).2
            ({ st with lockMgr := ms1, host := host2 }, [tid])
        else ({ st with lockMgr := ms1 }, [])

/-! ## Helper lemmas -/

instance (src : String) (k : SScope) : Decidable (sourceDenotesS src k) := by
  unfold sourceDenotesS
  infer_instance

instance (src : String) (k : GScope) : Decidable (sourceDenotesG src k) := by
  unfold sourceDenotesG
  infer_instance

theorem jsTruthy_some {s : String} (h : s ≠ "") : jsTruthy (some s) = true := by
  simp [jsTruthy, h]

theorem jsTruthy_none : jsTruthy none = false := rfl

/-- A single-chat context snapshot used to instantiate universally quantified
theorems. -/
def sampleSingleCtx : Ctx :=
  { isGroupChat := false, groupId := none, groupName := none, chatId := some "chat1"
    chatName := some "chat1", characterName := some "Alice"
    primaryId := some "Alice", secondaryId := some "chat1" }

/-- A group-chat context snapshot used to instantiate universally quantified
theorems. -/
def sampleGroupCtx : Ctx :=
  { isGroupChat := true, groupId := some "g1", groupName := some "Team"
    chatId := some "gc1", chatName := some "Team", characterName := some "Team"
    primaryId := some "g1", secondaryId := some "gc1" }

end CCPM

namespace CCPM

/-! ## Claims about the resolver (C2, C3, C10) -/

/-- C2: for every single-chat context snapshot, every lock set over the
Single family (lock values normalized, i.e. never the empty string), and
every single-family priority preference, `resolve` returns the templateId of
the highest-ranked scope kind holding a non-null lock together with a source
denoting that scope, and a null templateId when neither scope has a lock. -/
theorem single_resolution_matches_ranking (prefs : Prefs) (context : Ctx) (locks : Locks)
    (hctx : context.isGroupChat = false)
    (hchar : locks.character ≠ some "") (hchat : locks.chat ≠ some "") :
    (match (singleRanking prefs.preferCharacterOverChat).find?
        (fun k => (lockOfS locks k).isSome) with
     | some k =>
        (resolve prefs context locks).templateId = lockOfS locks k ∧
        sourceDenotesS (resolve prefs context locks).source k
     | none => (resolve prefs context locks).templateId = none) := by
  rcases locks with ⟨lc, lch, lg⟩
  simp only [resolve, hctx, Bool.false_eq_true, if_false]
  rcases prefs with ⟨pcc, pgc, pic⟩
  cases pcc <;> rcases lc with _ | c <;> rcases lch with _ | h <;>
    simp_all [resolveSingleLocks, singleRanking, lockOfS, sourceDenotesS, sNameOf,
      jsTruthy, SRC_CHARACTER, SRC_CHAT]

/-- Witness for C2 at Scenario A: single context, Character locked to "T1",
Chat locked to "T2", preference Character over Chat. -/
theorem single_resolution_matches_ranking_witness :
    (match (singleRanking defaultPrefs.preferCharacterOverChat).find?
        (fun k => (lockOfS ⟨some "T1", some "T2", none⟩ k).isSome) with
     | some k =>
        (resolve defaultPrefs sampleSingleCtx ⟨some "T1", some "T2", none⟩).templateId
            = lockOfS ⟨some "T1", some "T2", none⟩ k ∧
        sourceDenotesS (resolve defaultPrefs sampleSingleCtx ⟨some "T1", some "T2", none⟩).source k
     | none =>
        (resolve defaultPrefs sampleSingleCtx ⟨some "T1", some "T2", none⟩).templateId = none) :=
  single_resolution_matches_ranking defaultPrefs sampleSingleCtx ⟨some "T1", some "T2", none⟩
    rfl (by decide) (by decide)

/-- C3: for every group-chat context snapshot, every normalized lock set over
the Group family, and every group-family priority preference, `resolve`
returns the lock of the highest-ranked scope kind present (null when none
is); in particular, under Group > GroupSession > Character with locks
{Group: T3, GroupSession: T4, Character: T5} the result is (T3, Group), and
with the Group lock cleared it is (T4, GroupSession). -/
theorem group_resolution_matches_ranking :
    (∀ (prefs : Prefs) (context : Ctx) (locks : Locks),
        context.isGroupChat = true →
        locks.character ≠ some "" → locks.chat ≠ some "" → locks.group ≠ some "" →
        match (groupRanking prefs.preferIndividualCharacterInGroup
            prefs.preferGroupOverChat).find? (fun k => (lockOfG locks k).isSome) with
        | some k =>
            (resolve prefs context locks).templateId = lockOfG locks k ∧
            sourceDenotesG (resolve prefs context locks).source k
        | none => (resolve prefs context locks).templateId = none) ∧
    ((resolve defaultPrefs sampleGroupCtx ⟨some "T5", some "T4", some "T3"⟩).templateId
        = some "T3" ∧
     sourceDenotesG (resolve defaultPrefs sampleGroupCtx
        ⟨some "T5", some "T4", some "T3"⟩).source .group) ∧
    ((resolve defaultPrefs sampleGroupCtx ⟨some "T5", some "T4", none⟩).templateId
        = some "T4" ∧
     sourceDenotesG (resolve defaultPrefs sampleGroupCtx
        ⟨some "T5", some "T4", none⟩).source .groupChat) := by
  refine ⟨?_, ⟨by decide, by decide⟩, ⟨by decide, by decide⟩⟩
  intro prefs context locks hctx hchar hchat hgrp
  rcases locks with ⟨lc, lch, lg⟩
  simp only [resolve, hctx, if_true]
  rcases prefs with ⟨pcc, pgc, pic⟩
  cases pic <;> cases pgc <;> rcases lc with _ | c <;> rcases lch with _ | h <;>
    rcases lg with _ | g <;>
    simp_all [resolveGroupLocks, groupRanking, lockOfG, sourceDenotesG, gNameOf,
      jsTruthy, SRC_CHARACTER, SRC_CHAT, SRC_GROUP, SRC_GROUP_CHAT]

/-- Witness for C3's universally quantified part at Scenario C. -/
theorem group_resolution_matches_ranking_witness :
    (match (groupRanking defaultPrefs.preferIndividualCharacterInGroup
        defaultPrefs.preferGroupOverChat).find?
        (fun k => (lockOfG ⟨some "T5", some "T4", some "T3"⟩ k).isSome) with
     | some k =>
        (resolve defaultPrefs sampleGroupCtx ⟨some "T5", some "T4", some "T3"⟩).templateId
            = lockOfG ⟨some "T5", some "T4", some "T3"⟩ k ∧
        sourceDenotesG (resolve defaultPrefs sampleGroupCtx
            ⟨some "T5", some "T4", some "T3"⟩).source k
     | none =>
        (resolve defaultPrefs sampleGroupCtx
            ⟨some "T5", some "T4", some "T3"⟩).templateId = none) :=
  group_resolution_matches_ranking.1 defaultPrefs sampleGroupCtx
    ⟨some "T5", some "T4", some "T3"⟩ rfl (by decide) (by decide) (by decide)

/-- C10: under the default priority preferences, the current resolver and the
legacy fixed-priority resolver return the same templateId on every context
snapshot and every lock set. -/
theorem default_prefs_resolver_refines_legacy (context : Ctx) (locks : Locks) :
    (resolve defaultPrefs context locks).templateId
      = (legacyResolve context locks).templateId := by
  rcases locks with ⟨lc, lch, lg⟩
  cases hg : context.isGroupChat <;>
    simp only [resolve, legacyResolve, hg, Bool.false_eq_true, if_false, if_true] <;>
    [ (cases hc : jsTruthy lc <;> cases hh : jsTruthy lch <;>
        simp [resolveSingleLocks, legacyResolveSingleLocks, defaultPrefs, hc, hh]);
      (cases hc : jsTruthy lc <;> cases hh : jsTruthy lch <;> cases hgl : jsTruthy lg <;>
        simp [resolveGroupLocks, legacyResolveGroupLocks, defaultPrefs, hc, hh, hgl]) ]

/-! ## Claims about the ChatContext cache (C7, C8) -/

/-- C7: when `_buildContext` throws inside `getCurrent`, a previously cached
snapshot (if any) is returned without throwing, and with no cached snapshot
the failure propagates to the caller. -/
theorem getCurrent_build_failure (now : Nat) (s : CtxCache) (e : String) :
    (∀ c, s.cache = some c → (getCurrent now (.error e) s).result = .ok c) ∧
    (s.cache = none → (getCurrent now (.error e) s).result = .error e) := by
  constructor
  · intro c hc
    by_cases h : now - s.cacheTime < CACHE_TTL <;> simp [getCurrent, hc, h]
  · intro hc
    simp [getCurrent, hc]

/-- Witness for C7: a concrete stale cache survives a build failure; an empty
cache propagates it. -/
theorem getCurrent_build_failure_witness :
    (getCurrent 2000 (.error "boom") ⟨some sampleSingleCtx, 0⟩).result = .ok sampleSingleCtx ∧
    (getCurrent 2000 (.error "boom") ⟨none, 0⟩).result = .error "boom" :=
  ⟨(getCurrent_build_failure 2000 ⟨some sampleSingleCtx, 0⟩ "boom").1 sampleSingleCtx rfl,
   (getCurrent_build_failure 2000 ⟨none, 0⟩ "boom").2 rfl⟩

/-- Counterexample to C8 as stated: two `getCurrent` calls only 1 ms apart
(999 and 1000), no invalidate between them and both builds succeeding, where
the second call nevertheless rebuilds and returns a different snapshot — the
TTL is measured from the time the snapshot was cached (here 0), not from the
previous call. -/
theorem cache_ttl_claim_counterexample :
    1000 - 999 < CACHE_TTL ∧
    (getCurrent 999 (.ok sampleGroupCtx) ⟨some sampleSingleCtx, 0⟩).rebuilt = false ∧
    (getCurrent 999 (.ok sampleGroupCtx) ⟨some sampleSingleCtx, 0⟩).result
        = .ok sampleSingleCtx ∧
    (getCurrent 1000 (.ok sampleGroupCtx)
        (getCurrent 999 (.ok sampleGroupCtx) ⟨some sampleSingleCtx, 0⟩).state).rebuilt = true ∧
    (getCurrent 1000 (.ok sampleGroupCtx)
        (getCurrent 999 (.ok sampleGroupCtx) ⟨some sampleSingleCtx, 0⟩).state).result
        ≠ (getCurrent 999 (.ok sampleGroupCtx) ⟨some sampleSingleCtx, 0⟩).result := by
  decide

/-- C8 as amended: when the first `getCurrent` call itself rebuilt the
snapshot, a second call less than 1000 ms after it (no intervening
invalidate) returns the same snapshot without rebuilding; in general the
1000 ms bound runs from the moment the snapshot was cached, not from the
previous call. -/
theorem cache_ttl_after_rebuild (s : CtxCache) (now1 now2 : Nat) (ctx : Ctx)
    (b2 : Except String Ctx)
    (hreb : (getCurrent now1 (.ok ctx) s).rebuilt = true)
    (hlt : now2 - now1 < CACHE_TTL) :
    (getCurrent now2 b2 (getCurrent now1 (.ok ctx) s).state).result
        = (getCurrent now1 (.ok ctx) s).result ∧
    (getCurrent now2 b2 (getCurrent now1 (.ok ctx) s).state).rebuilt = false := by
  rcases s with ⟨cache, ct⟩
  rcases cache with _ | c
  · simp [getCurrent, hlt]
  · by_cases h : now1 - ct < CACHE_TTL
    · simp [getCurrent, h] at hreb
    · simp [getCurrent, h, hlt]

/-- Witness for the amended C8: a cache-miss call at 0 followed by a call at
500 returns the identical snapshot without rebuilding. -/
theorem cache_ttl_after_rebuild_witness :
    (getCurrent 500 (.ok sampleGroupCtx)
        (getCurrent 0 (.ok sampleSingleCtx) ⟨none, 0⟩).state).result
      = (getCurrent 0 (.ok sampleSingleCtx) ⟨none, 0⟩).result ∧
    (getCurrent 500 (.ok sampleGroupCtx)
        (getCurrent 0 (.ok sampleSingleCtx) ⟨none, 0⟩).state).rebuilt = false :=
  cache_ttl_after_rebuild ⟨none, 0⟩ 0 500 sampleSingleCtx (.ok sampleGroupCtx)
    (by decide) (by decide)

/-! ## Claim about storage flushes (C4) -/

/-- A concrete host environment with chat metadata present, a single group
"g1" and a single character "Alice". -/
def sampleEnv : HostEnv :=
  { selected_group := some "g1"
    groups := [{ id := "g1", name := some "Team", chat_id := some "gc1", ccpm_template_lock := none }]
    name2 := some "Alice"
    systemUserName := "System"
    neutralCharacterName := "Assistant"
    chatMetadataPresent := true
    chatMetaCharacterName := some "Alice"
    chatMetaTemplateLock := none
    contextChatId := some "chat1"
    characters := ["Alice"] }

/-- A concrete storage state over `sampleEnv` with no locks and no flushes yet. -/
def sampleStorage : StorageState :=
  { characterLocks := [], env := sampleEnv, flushes := [] }

/-- C4 evaluated on the code: the character, chat and group regions flush on a
successful set, but a successful group-session set (`setGroupChatTemplateLock`)
and delete return true while leaving the flush log empty — no
`saveMetadataDebounced` is triggered, refuting the claim for the fourth
region. -/
theorem group_session_lock_write_skips_flush :
    ((setCharacterTemplateLock sampleStorage (some "0") "t1").1 = true ∧
     (setCharacterTemplateLock sampleStorage (some "0") "t1").2.flushes
        = [FlushEvent.saveSettingsDebounced]) ∧
    ((setChatTemplateLock sampleStorage "t1").1 = true ∧
     (setChatTemplateLock sampleStorage "t1").2.flushes
        = [FlushEvent.saveMetadataDebounced]) ∧
    ((setGroupTemplateLock sampleStorage (some "g1") "t1").1 = true ∧
     (setGroupTemplateLock sampleStorage (some "g1") "t1").2.flushes
        = [FlushEvent.editGroup "g1"]) ∧
    ((setGroupChatTemplateLock sampleStorage (some "g1") "t1").1 = true ∧
     (setGroupChatTemplateLock sampleStorage (some "g1") "t1").2.flushes = []) ∧
    ((deleteGroupChatTemplateLock
        { sampleStorage with env := { sampleEnv with chatMetaTemplateLock := some "t1" } }
        (some "g1")).1 = true ∧
     (deleteGroupChatTemplateLock
        { sampleStorage with env := { sampleEnv with chatMetaTemplateLock := some "t1" } }
        (some "g1")).2.flushes = []) := by
  decide

/-! ## Claims about applyTemplate (C1, C5) -/

/-- A template whose prompts collection contains zero prompts. -/
def emptyTemplate : PromptTemplate :=
  { id := "t-empty", name := "Empty", prompts := [], promptOrder := [], promptOrderCharacterId := none }

/-- A live prompt state holding one prompt and one order entry. -/
def sampleHost : HostPromptState :=
  { prompts := [{ identifier := "main", role := "system", content := "You are." }]
    prompt_order := [{ character_id := 100000
                       order := [{ identifier := "main", enabled := true }] }]
    activeCharacter := some 100000 }

/-- C1 evaluated on the code: applying a template with zero prompts returns
true and replaces the non-empty live prompt collection with the empty one —
`applyTemplate` performs no empty-template refusal (the validation the
repository's code-review notes describe is absent from `applyTemplate`). -/
theorem apply_empty_template_wipes_prompts :
    (applyTemplate [emptyTemplate] "t-empty" true sampleHost).1 = true ∧
    (applyTemplate [emptyTemplate] "t-empty" true sampleHost).2.prompts = [] ∧
    sampleHost.prompts ≠ [] := by
  decide

theorem replaceFirstOrder_any (po : List OrderTableEntry) (cid : Nat) (ord : List OrderEntry) :
    (replaceFirstOrder po cid ord).any (fun e => e.character_id == cid)
      = po.any (fun e => e.character_id == cid) := by
  induction po with
  | nil => rfl
  | cons e rest ih =>
    by_cases h : e.character_id == cid <;> simp [replaceFirstOrder, h, ih]

theorem replaceFirstOrder_idem (po : List OrderTableEntry) (cid : Nat) (ord : List OrderEntry) :
    replaceFirstOrder (replaceFirstOrder po cid ord) cid ord = replaceFirstOrder po cid ord := by
  induction po with
  | nil => rfl
  | cons e rest ih =>
    by_cases h : e.character_id == cid <;> simp [replaceFirstOrder, h, ih]

theorem replaceFirstOrder_append_nomatch (po : List OrderTableEntry) (cid : Nat)
    (ord : List OrderEntry) (h : po.any (fun e => e.character_id == cid) = false) :
    replaceFirstOrder (po ++ [{ character_id := cid, order := ord }]) cid ord
      = po ++ [{ character_id := cid, order := ord }] := by
  induction po with
  | nil => simp [replaceFirstOrder]
  | cons e rest ih =>
    simp only [List.any_cons, Bool.or_eq_false_iff] at h
    simp [replaceFirstOrder, h.1, ih h.2]

theorem applyPromptOrder_idem (po : List OrderTableEntry) (cid : Nat) (ord : List OrderEntry) :
    applyPromptOrder (applyPromptOrder po cid ord) cid ord = applyPromptOrder po cid ord := by
  unfold applyPromptOrder
  by_cases h : po.any (fun e => e.character_id == cid) = true
  · simp [h, replaceFirstOrder_any, replaceFirstOrder_idem]
  · have h' : po.any (fun e => e.character_id == cid) = false := by
      simpa using h
    have hany : (po ++ [({ character_id := cid, order := ord } : OrderTableEntry)]).any
        (fun e => e.character_id == cid) = true := by
      simp
    simp [h', hany, replaceFirstOrder_append_nomatch po cid ord h']

/-- C5: for an existing template, applying it twice in immediate succession
leaves the live prompt state (prompts, prompt order and active character id)
after the second call equal to the state after the first call. -/
theorem applyTemplate_idempotent (templates : List PromptTemplate) (tid : String)
    (pm : Bool) (host : HostPromptState) (T : PromptTemplate)
    (hT : findTemplate templates tid = some T) :
    (applyTemplate templates tid pm (applyTemplate templates tid pm host).2).2
      = (applyTemplate templates tid pm host).2 := by
  unfold applyTemplate
  rw [hT]
  cases pm with
  | false => simp
  | true =>
    by_cases ho : T.promptOrder.length > 0
    · cases hac : host.activeCharacter <;>
        simp [ho, hac, applyPromptOrder_idem]
    · simp [ho]

/-- Witness for C5 at a concrete template and host state. -/
theorem applyTemplate_idempotent_witness :
    (applyTemplate
        [{ id := "t1", name := "Tpl"
           prompts := [{ identifier := "main", role := "system", content := "Hi" }]
           promptOrder := [{ identifier := "main", enabled := true }]
           promptOrderCharacterId := none }] "t1" true
      (applyTemplate
        [{ id := "t1", name := "Tpl"
           prompts := [{ identifier := "main", role := "system", content := "Hi" }]
           promptOrder := [{ identifier := "main", enabled := true }]
           promptOrderCharacterId := none }] "t1" true sampleHost).2).2
    = (applyTemplate
        [{ id := "t1", name := "Tpl"
           prompts := [{ identifier := "main", role := "system", content := "Hi" }]
           promptOrder := [{ identifier := "main", enabled := true }]
           promptOrderCharacterId := none }] "t1" true sampleHost).2 :=
  applyTemplate_idempotent _ "t1" true sampleHost _ rfl

/-! ## Claim about the auto-apply handlers (C6) -/

/-- C6: on a chat-change or preset-change event, if the auto-apply mode is
"never", or the resolved effective lock carries no templateId, the handler
invokes `applyTemplate` on nothing and leaves the live prompt state
unchanged. -/
theorem handlers_skip_apply_when_never_or_none (now : Nat) (popup : Bool) (st : MgrState) :
    (modeOf st.autoApplyMode = "never" →
        (handleChatChange now popup st).1.host = st.host ∧
        (handleChatChange now popup st).2 = [] ∧
        (handlePresetChange now popup st).1.host = st.host ∧
        (handlePresetChange now popup st).2 = []) ∧
    ((getEffectiveLock now st.prefs
          (loadCurrentLocks now { st.lockMgr with ctx := invalidate st.lockMgr.ctx }).2).1.templateId
        = none →
        (handleChatChange now popup st).1.host = st.host ∧
        (handleChatChange now popup st).2 = []) ∧
    ((getEffectiveLock now st.prefs st.lockMgr).1.templateId = none →
        (handlePresetChange now popup st).1.host = st.host ∧
        (handlePresetChange now popup st).2 = []) := by
  refine ⟨?_, ?_, ?_⟩
  · intro h
    simp [handleChatChange, handlePresetChange, h]
  · intro h
    by_cases hm : modeOf st.autoApplyMode = "never"
    · simp [handleChatChange, hm]
    · simp [handleChatChange, hm, h]
  · intro h
    by_cases hm : modeOf st.autoApplyMode = "never"
    · simp [handlePresetChange, hm]
    · simp [handlePresetChange, hm, h]

/-- A manager state with auto-apply mode "never" used as witness input. -/
def sampleMgrState : MgrState :=
  { lockMgr := { storage := sampleStorage, ctx := ⟨none, 0⟩, currentLocks := emptyLocks }
    autoApplyMode := some "never"
    prefs := defaultPrefs
    templates := []
    promptManagerAvailable := true
    host := sampleHost }

/-- Witness for C6: with mode "never", both handlers apply nothing and leave
the live prompt state untouched. -/
theorem handlers_skip_apply_when_never_or_none_witness :
    (handleChatChange 0 true sampleMgrState).1.host = sampleMgrState.host ∧
    (handleChatChange 0 true sampleMgrState).2 = [] ∧
    (handlePresetChange 0 true sampleMgrState).1.host = sampleMgrState.host ∧
    (handlePresetChange 0 true sampleMgrState).2 = [] :=
  (handlers_skip_apply_when_never_or_none 0 true sampleMgrState).1 (by decide)

/-! ## Claim about whitespace-only character names (C9) -/

/-- C9: a character name that is empty or whitespace-only after trimming and
normalization leaves the character scope absent: the name computation yields
the empty (falsy) name, lock loading leaves the character lock null, and
`setLock('character', ·)` and `clearLock('character')` return false without
touching storage or the in-memory lock mirror. -/
theorem whitespace_character_name_scope_absent :
    (∀ (env : HostEnv) (s : String),
        env.name2 = some s → s ≠ "" → s ≠ env.systemUserName →
        s ≠ env.neutralCharacterName → jsTrim s = "" →
        getCharacterNameForSettings env = some "") ∧
    (∀ (s : StorageState) (c : Ctx), jsTruthy c.characterName = false →
        (loadCurrentLocksPure s c).character = none) ∧
    (∀ (now : Nat) (tid : String) (ms : LockMgrState),
        jsTruthy (getCurrentOk now ms.storage.env ms.ctx).1.characterName = false →
        (setLock now "character" tid ms).1 = false ∧
        (setLock now "character" tid ms).2.storage = ms.storage ∧
        (setLock now "character" tid ms).2.currentLocks = ms.currentLocks) ∧
    (∀ (now : Nat) (ms : LockMgrState),
        jsTruthy (getCurrentOk now ms.storage.env ms.ctx).1.characterName = false →
        (clearLock now "character" ms).1 = false ∧
        (clearLock now "character" ms).2.storage = ms.storage ∧
        (clearLock now "character" ms).2.currentLocks = ms.currentLocks) := by
  refine ⟨?_, ?_, ?_, ?_⟩
  · intro env s hn hs hsys hneu htrim
    simp [getCharacterNameForSettings, jsTruthy, hn, hs, hsys, hneu, htrim, normalizeNFC]
  · intro s c hc
    rcases hn : c.characterName with _ | nm
    · cases hg : c.isGroupChat <;>
        simp [loadCurrentLocksPure, loadGroupLocks, loadSingleLocks, loadCharacterLock, hg, hn]
    · rw [hn] at hc
      have hnm : nm = "" := by
        simpa [jsTruthy] using hc
      cases hg : c.isGroupChat <;>
        simp [loadCurrentLocksPure, loadGroupLocks, loadSingleLocks, loadCharacterLock,
          hg, hn, hnm]
  · intro now tid ms hc
    rcases hn : (getCurrentOk now ms.storage.env ms.ctx).1.characterName with _ | nm
    · simp [setLock, hn]
    · rw [hn] at hc
      have hnm : nm = "" := by
        simpa [jsTruthy] using hc
      simp [setLock, hn, hnm]
  · intro now ms hc
    rcases hn : (getCurrentOk now ms.storage.env ms.ctx).1.characterName with _ | nm
    · simp [clearLock, hn]
    · rw [hn] at hc
      have hnm : nm = "" := by
        simpa [jsTruthy] using hc
      simp [clearLock, hn, hnm]

/-- A host environment whose `name2` is whitespace only. -/
def wsEnv : HostEnv :=
  { sampleEnv with selected_group := none, name2 := some "   ", chatMetaCharacterName := none }

/-- A single-chat context whose character name collapsed to the empty string. -/
def wsCtx : Ctx :=
  { sampleSingleCtx with characterName := some "", primaryId := some "" }

/-- A lock manager state whose cached context has the empty character name. -/
def wsMs : LockMgrState :=
  { storage := { characterLocks := [("0", "t9")], env := wsEnv, flushes := [] }
    ctx := ⟨some wsCtx, 0⟩
    currentLocks := emptyLocks }

/-- Witness for C9 at a whitespace-only name: the name computation yields "",
no character lock is read, and character set/clear fail without side effects. -/
theorem whitespace_character_name_scope_absent_witness :
    getCharacterNameForSettings wsEnv = some "" ∧
    (loadCurrentLocksPure wsMs.storage wsCtx).character = none ∧
    (setLock 0 "character" "t1" wsMs).1 = false ∧
    (setLock 0 "character" "t1" wsMs).2.storage = wsMs.storage ∧
    (clearLock 0 "character" wsMs).1 = false ∧
    (clearLock 0 "character" wsMs).2.storage = wsMs.storage :=
  ⟨whitespace_character_name_scope_absent.1 wsEnv "   " rfl (by decide) (by decide)
      (by decide) (by decide),
   whitespace_character_name_scope_absent.2.1 wsMs.storage wsCtx (by decide),
   (whitespace_character_name_scope_absent.2.2.1 0 "t1" wsMs (by decide)).1,
   (whitespace_character_name_scope_absent.2.2.1 0 "t1" wsMs (by decide)).2.1,
   (whitespace_character_name_scope_absent.2.2.2 0 wsMs (by decide)).1,
   (whitespace_character_name_scope_absent.2.2.2 0 wsMs (by decide)).2.1⟩

end CCPM
